import Mathlib

/-!
# Verification of the sign-language PWA streaming pipeline

A shallow embedding of the frame-to-batch streaming pipeline of the
sign-language PWA: the landmark extraction and batch accumulation of
`PoseDetector` (src/unnamed/part_000), the HTTP client `APIClient`
(src/js/apiClient.js) and the orchestrator `App` (src/js/app.js).

JavaScript numbers that hold normalized landmark coordinates are modelled
as rationals (`ℚ`); `Math.round` is modelled as `⌊x + 1/2⌋`, which is its
specified behaviour (round half toward positive infinity).  JavaScript
exceptions are modelled with `Except`; `fetch` outcomes (network error
versus an HTTP response with a status code and a parse result for the
body) are modelled as explicit inductive data.  The asynchronous
orchestrator is modelled as a step function over an explicit event trace:
a `batchReady` event is the accumulator invoking `onFrameCallback`, a
`fetchResolved` event is the `await`ed `translate` promise settling, and
`stopClick`/`startClick` are the button handlers.
-/

namespace SignPWA

/-! ## Coordinate rounding (src/unnamed/part_000, lines 144-150)

The source stores every landmark coordinate as
`Math.round(lm.x * 1000) / 1000`. -/

/-- JavaScript `Math.round`: the integer nearest `q`, with ties rounded
toward positive infinity, i.e. `⌊q + 1/2⌋`. -/
def jsRound (q : ℚ) : ℤ := ⌊q + 1/2⌋

/-- `Math.round(q * 1000) / 1000` from `extractSkeletalData`. -/
def roundCoord (q : ℚ) : ℚ := (jsRound (q * 1000) : ℚ) / 1000

/-- Modelled from the spec (§4.1 numeric policy): rounding half-away-from-zero
to 3 decimal places.  This is the policy the spec claims; it is compared
against `roundCoord`, the rounding the source actually performs. -/
def specRoundHalfAwayFromZero (q : ℚ) : ℚ :=
  if 0 ≤ q then (⌊q * 1000 + 1/2⌋ : ℚ) / 1000
  else -((⌊-(q * 1000) + 1/2⌋ : ℚ) / 1000)

/-! ## Detection inputs and frame records -/

/-- One MediaPipe landmark: normalized x, y, z. -/
structure Landmark where
  x : ℚ
  y : ℚ
  z : ℚ
deriving DecidableEq, Repr

/-- One detected hand: the handedness label from `multiHandedness[index].label`
paired with its landmark list from `multiHandLandmarks[index]` (the source
keeps these in two parallel arrays indexed together). -/
structure HandDetection where
  label : String
  landmarks : List Landmark
deriving DecidableEq, Repr

/-- The detector's latest-known results when `extractSkeletalData` runs:
`currentPoseData?.poseLandmarks`, `currentHandsData?.multiHandLandmarks`
(zipped with handedness), and `currentFaceData?.multiFaceLandmarks`.
`none` models a `null` holder or a missing landmark field. -/
structure DetectionState where
  poseLandmarks : Option (List Landmark)
  hands : Option (List HandDetection)
  faceLandmarks : Option (List (List Landmark))
deriving DecidableEq, Repr

/-- The `skeletalData` object built by `extractSkeletalData`: coordinates are
stored as `[x, y, z]` triples of rounded rationals; `none` models `null`. -/
structure FrameRecord where
  timestamp : ℤ
  frame_id : ℕ
  pose_landmarks : Option (List (List ℚ))
  left_hand : Option (List (List ℚ))
  right_hand : Option (List (List ℚ))
  face_landmarks : Option (List (List ℚ))
deriving DecidableEq, Repr

/-- `[Math.round(lm.x*1000)/1000, Math.round(lm.y*1000)/1000,
Math.round(lm.z*1000)/1000]`. -/
def roundLandmark (lm : Landmark) : List ℚ :=
  [roundCoord lm.x, roundCoord lm.y, roundCoord lm.z]

/-- The fixed face keypoint indices `[10, 152, 234, 454, 70, 300]`. -/
def faceKeyIndices : List ℕ := [10, 152, 234, 454, 70, 300]

/-- Fold of the `forEach` over detected hands: a `Left` label assigns the
rounded landmarks to `left_hand`, anything else to `right_hand`; a later
entry with the same handedness overwrites an earlier one. -/
def assignHand (acc : Option (List (List ℚ)) × Option (List (List ℚ)))
    (h : HandDetection) :
    Option (List (List ℚ)) × Option (List (List ℚ)) :=
  let handData := h.landmarks.map roundLandmark
  if h.label = "Left" then (some handData, acc.2) else (acc.1, some handData)

/-- Placeholder for out-of-range face indexing.  MediaPipe face mesh always
returns a fixed-length list of 468 landmarks, so the key indices are in
range; `getD` keeps the embedding total. -/
def defaultLandmark : Landmark := ⟨0, 0, 0⟩

/-- `PoseDetector.extractSkeletalData` (src/unnamed/part_000, lines 134-179),
up to the push into `frameBuffer`: builds one record from the current time
(`Date.now()`), the current buffer length (`frame_id: this.frameBuffer.length`)
and the latest detection results. -/
def extractSkeletalData (now : ℤ) (bufLen : ℕ) (d : DetectionState) :
    FrameRecord :=
  let pose := d.poseLandmarks.map (fun lms => lms.map roundLandmark)
  let hands := (d.hands.getD []).foldl assignHand (none, none)
  let face :=
    match d.faceLandmarks with
    | some (fl :: _) =>
        some (faceKeyIndices.map fun i => roundLandmark (fl.getD i defaultLandmark))
    | _ => none
  { timestamp := now
    frame_id := bufLen
    pose_landmarks := pose
    left_hand := hands.1
    right_hand := hands.2
    face_landmarks := face }

/-! ## Batch accumulation (src/unnamed/part_000, lines 181-199) -/

/-- The accumulator-relevant state of one `PoseDetector`: whether the camera
tracks are live, the `frameBuffer`, and the history of batches handed to
`onFrameCallback` (in order of release). -/
structure DetectorState where
  cameraActive : Bool
  frameBuffer : List FrameRecord
  emitted : List (List FrameRecord)
deriving DecidableEq, Repr

/-- Fresh detector: empty buffer, camera running, nothing emitted. -/
def initDetector : DetectorState :=
  { cameraActive := true, frameBuffer := [], emitted := [] }

/-- The tail of `extractSkeletalData` (lines 181-188): push the record built
from input `(now, detections)` onto `frameBuffer`; once
`frameBuffer.length >= CONFIG.FRAME_BATCH_SIZE` (`B`), hand a copy of the
buffer to `onFrameCallback` and reset the buffer to `[]`.  The callback is
modelled as appending to `emitted`. -/
def pushFrame (B : ℕ) (s : DetectorState) (input : ℤ × DetectionState) :
    DetectorState :=
  let r := extractSkeletalData input.1 s.frameBuffer.length input.2
  let buf := s.frameBuffer ++ [r]
  if B ≤ buf.length then
    { s with frameBuffer := [], emitted := s.emitted ++ [buf] }
  else
    { s with frameBuffer := buf }

/-- Run the capture loop over a sequence of frames, each contributing a
capture time and a detection state. -/
def runFrames (B : ℕ) (inputs : List (ℤ × DetectionState)) : DetectorState :=
  inputs.foldl (pushFrame B) initDetector

/-- `PoseDetector.stop` (lines 195-199): stops the camera media tracks and
nothing else — the frame buffer is left as is and no callback is invoked.
(`App.stop` additionally clears the canvas and the UI text; neither reads
the buffer.) -/
def detectorStop (s : DetectorState) : DetectorState :=
  { s with cameraActive := false }

/-- The records the pipeline builds for an input sequence whose first element
is the `k`-th frame overall: record `k + i` carries `frame_id = (k + i) % B`
because the buffer resets every `B` pushes. -/
def recordsOf (B : ℕ) : ℕ → List (ℤ × DetectionState) → List FrameRecord
  | _, [] => []
  | k, (t, d) :: rest =>
      extractSkeletalData t (k % B) d :: recordsOf B (k + 1) rest

/-- A detection state with nothing detected (all holders `null`). -/
def emptyDetection : DetectionState :=
  { poseLandmarks := none, hands := none, faceLandmarks := none }

/-! ## API client (src/js/apiClient.js) -/

/-- The response body of a successful translation, as the orchestrator
consumes it: `result.translation` and `result.words`. -/
structure TranslationResult where
  translation : String
  words : List String
deriving DecidableEq, Repr

/-- A minimal JSON value, enough to model `/health` response bodies. -/
inductive Json where
  | null
  | bool (b : Bool)
  | num (n : ℤ)
  | str (s : String)
  | obj (fields : List (String × Json))

/-- JavaScript property access `j.status`: a field lookup on an object,
`undefined` (here `none`) on everything else. -/
def statusField : Json → Option Json
  | .obj fields => fields.lookup "status"
  | _ => none

/-- JavaScript falsiness of a JSON value: `null`, `false`, `0` and `""`
are falsy. -/
def jsFalsy : Json → Bool
  | .null => true
  | .bool false => true
  | .num 0 => true
  | .str "" => true
  | _ => false

/-- `health && health.status === 'ok'` from `App.checkAPIHealth`: the parsed
body must be truthy and its `status` property must be the string `"ok"`. -/
def healthIsOk (health : Option Json) : Bool :=
  match health with
  | none => false
  | some h =>
      if jsFalsy h then false
      else
        match statusField h with
        | some (Json.str s) => s == "ok"
        | _ => false

/-- Outcome of `fetch(baseURL + "/health")` followed by `response.json()`:
either the fetch rejects at the network level, or a response arrives with
an HTTP status code and a body whose JSON parse yields `some` value or
fails (`none`). -/
inductive HealthFetch where
  | networkError
  | response (status : ℕ) (body : Option Json)

/-- The `try` block of `APIClient.healthCheck` (lines 30-38): `fetch` may
throw (network error), and `response.json()` may throw (body not valid
JSON); otherwise the parsed body is returned. -/
def healthCheckAttempt (hf : HealthFetch) : Except String Json :=
  match hf with
  | .networkError => .error "TypeError: failed to fetch"
  | .response _ body =>
      match body with
      | some j => .ok j
      | none => .error "SyntaxError: unexpected token"

/-- `APIClient.healthCheck`: the `catch` absorbs every exception of the
`try` block into a `null` return value.  Note that the HTTP status code is
never inspected. -/
def healthCheck (hf : HealthFetch) : Option Json :=
  match healthCheckAttempt hf with
  | .ok j => some j
  | .error _ => none

/-- `response.ok`: the HTTP status is in the range 200-299. -/
def responseOk (status : ℕ) : Bool := 200 ≤ status && status ≤ 299

/-- Outcome of `fetch(baseURL + "/translate", ...)`: a network rejection, or
a response with its status and the parse result of its body (a body that is
not a well-formed translation result is `none`). -/
inductive TranslateFetch where
  | networkError
  | response (status : ℕ) (body : Option TranslationResult)
deriving DecidableEq

/-- `APIClient.translate` (lines 6-28): a network failure rethrows; a
non-2xx response throws ``API error: ${response.status}``; otherwise the
parsed JSON body is returned (a parse failure also rethrows). -/
def translate (f : TranslateFetch) : Except String TranslationResult :=
  match f with
  | .networkError => .error "TypeError: failed to fetch"
  | .response status body =>
      if responseOk status then
        match body with
        | some r => .ok r
        | none => .error "SyntaxError: unexpected token"
      else .error ("API error: " ++ toString status)

/-! ## Orchestrator (src/js/app.js)

`App` is modelled as a state stepped by events.  `inFlight` is the list of
`translate` calls whose promise has not yet settled, keyed by a submission
id (`nextId` counts submissions); `submitted` is the full history of
batches handed to `APIClient.translate`, in call order. -/

/-- The orchestrator-visible state of `App`: the `isRunning` flag, the three
text elements (`status`, `translation`, `words`), and the bookkeeping of
outstanding and past submissions. -/
structure AppState where
  isRunning : Bool
  statusText : String
  translationText : String
  wordsText : String
  inFlight : List (ℕ × List FrameRecord)
  nextId : ℕ
  submitted : List (List FrameRecord)
deriving DecidableEq, Repr

/-- The app as constructed on page load. -/
def initApp : AppState :=
  { isRunning := false
    statusText := ""
    translationText := ""
    wordsText := ""
    inFlight := []
    nextId := 0
    submitted := [] }

/-- A session in progress with nothing in flight. -/
def runningApp : AppState := { initApp with isRunning := true }

/-- Events that drive `App`: the accumulator releasing a batch to
`onFrameBatch`, the `translate` fetch of submission `id` settling with
outcome `f`, the stop button, and the start button (with whether the
camera permission was granted). -/
inductive AppEvent where
  | batchReady (frames : List FrameRecord)
  | fetchResolved (id : ℕ) (f : TranslateFetch)
  | stopClick
  | startClick (cameraGranted : Bool)

/-- ``Recognized: ${result.words.join(', ')}``. -/
def recognizedText (ws : List String) : String :=
  "Recognized: " ++ String.intercalate ", " ws

/-- The continuation of `App.onFrameBatch` after `await translate`: on
success the result is written to the display unconditionally; on error the
status shows the transient failure message.  (Note there is no `isRunning`
re-check here — the only check is at entry to `onFrameBatch`.) -/
def applyOutcome (s : AppState) (r : Except String TranslationResult) :
    AppState :=
  match r with
  | .ok res =>
      { s with translationText := res.translation
               wordsText := recognizedText res.words
               statusText := "Active - Start signing!" }
  | .error _ =>
      { s with statusText := "Translation failed. Retrying..." }

/-- One event step of `App` (src/js/app.js, lines 38-116):

* `batchReady`: `onFrameBatch` returns at once when `!isRunning`; otherwise
  it sets the processing status and starts a `translate` call — a new
  in-flight submission, with no cap on how many may be outstanding.
* `fetchResolved`: the `await` resumes and `applyOutcome` runs, whatever
  `isRunning` now is; the submission leaves `inFlight`.
* `stopClick`: `App.stop` clears `isRunning`, resets the display texts and
  stops the camera; it does not touch outstanding submissions.
* `startClick`: `App.start` sets `isRunning` once the camera is granted
  (it never consults the health-probe outcome); a camera failure only
  surfaces an error status. -/
def step (s : AppState) (e : AppEvent) : AppState :=
  match e with
  | .batchReady frames =>
      if s.isRunning then
        { s with statusText := "Processing..."
                 inFlight := s.inFlight ++ [(s.nextId, frames)]
                 submitted := s.submitted ++ [frames]
                 nextId := s.nextId + 1 }
      else s
  | .fetchResolved id f =>
      if (s.inFlight.lookup id).isSome then
        applyOutcome
          { s with inFlight := s.inFlight.filter (fun p => p.1 != id) }
          (translate f)
      else s
  | .stopClick =>
      { s with isRunning := false
               statusText := "Stopped"
               translationText := "Start signing..."
               wordsText := "" }
  | .startClick granted =>
      if granted then
        { s with isRunning := true, statusText := "Active - Start signing!" }
      else
        { s with statusText := "Error: camera denied" }

/-- Run a trace of events from a state. -/
def runTrace (s : AppState) (events : List AppEvent) : AppState :=
  events.foldl step s

/-- `App.checkAPIHealth` (lines 27-36): awaits `healthCheck` and sets the
status text accordingly; nothing else in the app reads the outcome. -/
def checkAPIHealth (hf : HealthFetch) (s : AppState) : AppState :=
  { s with statusText :=
      if healthIsOk (healthCheck hf) then "Ready to start"
      else "API connection failed. Check backend." }

/-! ## Helper lemmas -/

/-- The floor of an integer plus one half is that integer. -/
lemma floor_intCast_add_half (k : ℤ) : ⌊(k : ℚ) + 1/2⌋ = k := by
  rw [Int.floor_eq_iff]
  constructor
  · linarith
  · linarith

/-! ## Claims about coordinate rounding -/

/-- C9: Coordinate rounding is idempotent — applying `roundCoord` to an
already-rounded coordinate returns it unchanged. -/
theorem roundCoord_idempotent (q : ℚ) :
    roundCoord (roundCoord q) = roundCoord q := by
  unfold roundCoord jsRound
  rw [div_mul_cancel₀ _ (by norm_num : (1000 : ℚ) ≠ 0),
    floor_intCast_add_half]

/-- C8 counterexample: at the coordinate `-0.0005` the source's rounding
(`Math.round(q*1000)/1000`) yields `0`, while rounding half-away-from-zero
to 3 decimal places yields `-0.001`; the claimed policy is violated. -/
theorem round_not_half_away_from_zero :
    roundCoord (-(1:ℚ)/2000) = 0 ∧
    specRoundHalfAwayFromZero (-(1:ℚ)/2000) = -(1/1000) ∧
    roundCoord (-(1:ℚ)/2000) ≠ specRoundHalfAwayFromZero (-(1:ℚ)/2000) := by
  have h1 : roundCoord (-(1:ℚ)/2000) = 0 := by
    unfold roundCoord jsRound
    rw [show (-(1:ℚ)/2000) * 1000 + 1/2 = 0 by norm_num, Int.floor_zero]
    norm_num
  have h2 : specRoundHalfAwayFromZero (-(1:ℚ)/2000) = -(1/1000) := by
    unfold specRoundHalfAwayFromZero
    rw [if_neg (by norm_num),
      show -((-(1:ℚ)/2000) * 1000) + 1/2 = 1 by norm_num, Int.floor_one]
    norm_num
  refine ⟨h1, h2, ?_⟩
  rw [h1, h2]
  norm_num

/-- C8 amended: every stored coordinate is the input rounded half-up
(half toward positive infinity) to 3 decimal places — the stored value is a
multiple of 1/1000 lying within half a unit of the input, with a tie
resolved to the larger multiple.  (Half-away-from-zero coincides with this
only for nonnegative inputs.) -/
theorem roundCoord_half_up_characterization (q : ℚ) :
    ∃ k : ℤ, roundCoord q = (k : ℚ) / 1000 ∧
      q - 1/2000 < (k : ℚ) / 1000 ∧ (k : ℚ) / 1000 ≤ q + 1/2000 := by
  unfold roundCoord jsRound
  refine ⟨⌊q * 1000 + 1/2⌋, rfl, ?_, ?_⟩
  · have h := Int.lt_floor_add_one (q * 1000 + 1/2)
    rw [lt_div_iff₀ (by norm_num : (0:ℚ) < 1000)]
    push_cast at h ⊢
    linarith
  · have h := Int.floor_le (q * 1000 + 1/2)
    rw [div_le_iff₀ (by norm_num : (0:ℚ) < 1000)]
    push_cast at h ⊢
    linarith

/-! ## Claims about extraction determinism -/

/-- C5 counterexample: two extractions on identical detection inputs but at
different clock times produce different records — `timestamp` comes from
`Date.now()`, so the records are not byte-identical. -/
theorem extraction_not_byte_identical :
    extractSkeletalData 0 0 emptyDetection
      ≠ extractSkeletalData 1 0 emptyDetection := by
  decide

/-- C5 amended: extraction is a deterministic function of its inputs, and on
identical detection inputs the four landmark fields are identical; but the
record additionally embeds the capture time as `timestamp` and the buffer
position as `frame_id`, so full records are byte-identical only when those
coincide as well. -/
theorem extraction_deterministic_landmark_fields (t t' : ℤ) (k k' : ℕ)
    (d : DetectionState) :
    (extractSkeletalData t k d).pose_landmarks
        = (extractSkeletalData t' k' d).pose_landmarks ∧
    (extractSkeletalData t k d).left_hand
        = (extractSkeletalData t' k' d).left_hand ∧
    (extractSkeletalData t k d).right_hand
        = (extractSkeletalData t' k' d).right_hand ∧
    (extractSkeletalData t k d).face_landmarks
        = (extractSkeletalData t' k' d).face_landmarks ∧
    (extractSkeletalData t k d).timestamp = t ∧
    (extractSkeletalData t k d).frame_id = k :=
  ⟨rfl, rfl, rfl, rfl, rfl, rfl⟩

/-! ## Claims about the health probe -/

/-- The parse outcome of the body is returned unchanged for any response,
whatever its HTTP status. -/
lemma healthCheck_response (st : ℕ) (body : Option Json) :
    healthCheck (HealthFetch.response st body) = body := by
  cases body <;> rfl

/-- C7 counterexample: an HTTP 500 response whose body is the JSON object
`{"status": "ok"}` makes the probe report readiness — the HTTP status is
never inspected, contradicting the claim that only a successful response
with that body passes the probe. -/
theorem health_ok_despite_500 :
    (checkAPIHealth
        (HealthFetch.response 500 (some (Json.obj [("status", Json.str "ok")])))
        initApp).statusText = "Ready to start" := by
  rfl

/-- C7 amended: the probe reports readiness exactly when the response body
parses to a truthy JSON value whose `status` field is the string `"ok"` —
the HTTP status code is ignored; any other body, a parse failure or a
network failure only sets the failure status message; and `start()` is not
gated on the probe outcome: with the camera granted it sets the app running
from any state. -/
theorem health_probe_ignores_status_and_start_ungated (hf : HealthFetch)
    (s t : AppState) :
    ((checkAPIHealth hf s).statusText = "Ready to start" ↔
      ∃ st body, hf = HealthFetch.response st body ∧ healthIsOk body = true) ∧
    (step t (AppEvent.startClick true)).isRunning = true := by
  constructor
  · cases hf with
    | networkError =>
        rw [show (checkAPIHealth HealthFetch.networkError s).statusText =
            "API connection failed. Check backend." from rfl]
        constructor
        · intro h
          exact absurd h (by decide)
        · rintro ⟨st, body, h, -⟩
          exact HealthFetch.noConfusion h
    | response st body =>
        rw [show (checkAPIHealth (HealthFetch.response st body) s).statusText =
            if healthIsOk (healthCheck (HealthFetch.response st body))
            then "Ready to start"
            else "API connection failed. Check backend." from rfl,
          healthCheck_response]
        cases h : healthIsOk body with
        | true =>
            rw [if_pos rfl]
            exact ⟨fun _ => ⟨st, body, rfl, h⟩, fun _ => rfl⟩
        | false =>
            rw [if_neg Bool.false_ne_true]
            constructor
            · intro hcontra
              exact absurd hcontra (by decide)
            · rintro ⟨st', body', heq, hok⟩
              cases heq
              rw [h] at hok
              exact Bool.noConfusion hok
  · rfl

/-! ## Claim about the health client's totality -/

/-- C10: `APIClient.healthCheck` absorbs every failure into `null`: for each
fetch outcome it either returns the successfully parsed JSON body, or the
outcome was a network failure or an unparseable body and it returns `none`.
Being a Lean function into `Option Json`, it is total and never raises. -/
theorem healthCheck_total_absorbs_failures : ∀ hf : HealthFetch,
    (∃ j, healthCheckAttempt hf = Except.ok j ∧ healthCheck hf = some j) ∨
    ((hf = HealthFetch.networkError ∨
        ∃ st, hf = HealthFetch.response st none) ∧ healthCheck hf = none) := by
  intro hf
  cases hf with
  | networkError => exact Or.inr ⟨Or.inl rfl, rfl⟩
  | response st body =>
      cases body with
      | some j => exact Or.inl ⟨j, rfl, rfl⟩
      | none => exact Or.inr ⟨Or.inr ⟨st, rfl⟩, rfl⟩

/-! ## Claims about submission concurrency and stop -/

/-- A `batchReady` event on a running app starts one more submission and
keeps the app running; nothing caps or replaces outstanding submissions. -/
lemma batchReady_appends (s : AppState) (frames : List FrameRecord)
    (h : s.isRunning = true) :
    step s (AppEvent.batchReady frames)
      = { s with statusText := "Processing..."
                 inFlight := s.inFlight ++ [(s.nextId, frames)]
                 submitted := s.submitted ++ [frames]
                 nextId := s.nextId + 1 } := by
  simp only [step]
  rw [if_pos h]

/-- Releasing `n` batches with none of their fetches settling grows the
in-flight and submitted lists by `n` each, from any running state. -/
lemma replicate_batchReady_growth (n : ℕ) :
    ∀ s : AppState, s.isRunning = true →
      (runTrace s (List.replicate n (AppEvent.batchReady []))).inFlight.length
          = s.inFlight.length + n ∧
      (runTrace s (List.replicate n (AppEvent.batchReady []))).submitted.length
          = s.submitted.length + n := by
  induction n with
  | zero =>
      intro s _
      exact ⟨rfl, rfl⟩
  | succ n ih =>
      intro s h
      rw [List.replicate_succ]
      have hstep := batchReady_appends s [] h
      have hrun : (step s (AppEvent.batchReady [])).isRunning = true := by
        rw [hstep]
        exact h
      have := ih (step s (AppEvent.batchReady [])) hrun
      rw [show runTrace s (AppEvent.batchReady [] ::
            List.replicate n (AppEvent.batchReady []))
          = runTrace (step s (AppEvent.batchReady []))
            (List.replicate n (AppEvent.batchReady [])) from rfl]
      rw [this.1, this.2, hstep]
      simp [List.length_append]
      omega

/-- C3 counterexample: from a running session, two batches released before
either fetch settles leave two submissions in flight simultaneously — the
claimed at-most-one-in-flight bound does not hold. -/
theorem two_batches_in_flight :
    (runTrace runningApp
        [AppEvent.batchReady [], AppEvent.batchReady []]).inFlight.length
      = 2 := by
  rfl

/-- C3 amended: there is no backpressure bounding at all — every batch
released while the session runs is handed to `translate` immediately and
concurrently, so `n` releases with no completion leave `n` submissions in
flight and `n` batches submitted; no pending slot exists and no batch is
replaced or discarded before submission. -/
theorem eager_unbounded_submission (n : ℕ) :
    (runTrace runningApp
        (List.replicate n (AppEvent.batchReady []))).inFlight.length = n ∧
    (runTrace runningApp
        (List.replicate n (AppEvent.batchReady []))).submitted.length = n := by
  obtain ⟨h1, h2⟩ := replicate_batchReady_growth n runningApp rfl
  have e1 : runningApp.inFlight.length = 0 := rfl
  have e2 : runningApp.submitted.length = 0 := rfl
  constructor
  · rw [h1, e1]
    exact Nat.zero_add n
  · rw [h2, e2]
    exact Nat.zero_add n

/-- C4: evaluating the code on the failing trace — a batch is released while
running, `stop()` resets the display to `"Start signing..."`, and then the
in-flight `translate` resolves successfully: its stale result is applied,
overwriting both the translation text and the recognized-words text, even
though the session is stopped. -/
theorem stale_result_overwrites_after_stop :
    (runTrace runningApp
        [AppEvent.batchReady [], AppEvent.stopClick,
         AppEvent.fetchResolved 0
           (TranslateFetch.response 200 (some ⟨"HELLO", ["HELLO"]⟩))]
      ).translationText = "HELLO" ∧
    (runTrace runningApp
        [AppEvent.batchReady [], AppEvent.stopClick,
         AppEvent.fetchResolved 0
           (TranslateFetch.response 200 (some ⟨"HELLO", ["HELLO"]⟩))]
      ).wordsText = "Recognized: HELLO" ∧
    (runTrace runningApp
        [AppEvent.batchReady [], AppEvent.stopClick,
         AppEvent.fetchResolved 0
           (TranslateFetch.response 200 (some ⟨"HELLO", ["HELLO"]⟩))]
      ).isRunning = false := by
  refine ⟨rfl, rfl, rfl⟩

/-! ## Claim about submission failure handling -/

/-- C6: a network failure or a non-2xx response makes `translate` raise; when
that rejection reaches `onFrameBatch`, the status shows the transient
failure message, the session keeps its running flag, the displayed
translation is untouched, and no resubmission happens — the submission
history and the submission counter are unchanged, and the failed
submission merely leaves the in-flight list. -/
theorem submission_failure_transient (s : AppState) (id : ℕ)
    (f : TranslateFetch)
    (hin : (s.inFlight.lookup id).isSome = true)
    (hf : f = TranslateFetch.networkError ∨
          ∃ st body, f = TranslateFetch.response st body ∧
            responseOk st = false) :
    (∃ e, translate f = Except.error e) ∧
    (step s (AppEvent.fetchResolved id f)).statusText
        = "Translation failed. Retrying..." ∧
    (step s (AppEvent.fetchResolved id f)).isRunning = s.isRunning ∧
    (step s (AppEvent.fetchResolved id f)).submitted = s.submitted ∧
    (step s (AppEvent.fetchResolved id f)).nextId = s.nextId ∧
    (step s (AppEvent.fetchResolved id f)).translationText
        = s.translationText ∧
    (step s (AppEvent.fetchResolved id f)).inFlight
        = s.inFlight.filter (fun p => p.1 != id) := by
  have herr : ∃ e, translate f = Except.error e := by
    rcases hf with rfl | ⟨st, body, rfl, hok⟩
    · exact ⟨_, rfl⟩
    · refine ⟨"API error: " ++ toString st, ?_⟩
      simp only [translate]
      rw [hok]
      rfl
  obtain ⟨e, he⟩ := herr
  have hstep : step s (AppEvent.fetchResolved id f)
      = applyOutcome
          { s with inFlight := s.inFlight.filter (fun p => p.1 != id) }
          (translate f) := by
    simp only [step]
    rw [if_pos hin]
  rw [hstep, he]
  exact ⟨⟨e, rfl⟩, rfl, rfl, rfl, rfl, rfl, rfl⟩

/-- A running app with one outstanding submission (id 0) — the state from
which the C6 witness discharges the claim. -/
def pendingApp : AppState :=
  { runningApp with inFlight := [(0, [])], nextId := 1, submitted := [[]] }

/-- Witness for C6 at a concrete state and a concrete HTTP 500 response. -/
theorem submission_failure_transient_witness :
    ((pendingApp.inFlight.lookup 0).isSome = true) ∧
    ((TranslateFetch.response 500 none = TranslateFetch.networkError ∨
        ∃ st body, TranslateFetch.response 500 none
            = TranslateFetch.response st body ∧ responseOk st = false) ∧
     ((∃ e, translate (TranslateFetch.response 500 none) = Except.error e) ∧
      (step pendingApp
          (AppEvent.fetchResolved 0 (TranslateFetch.response 500 none))
        ).statusText = "Translation failed. Retrying..." ∧
      (step pendingApp
          (AppEvent.fetchResolved 0 (TranslateFetch.response 500 none))
        ).isRunning = pendingApp.isRunning ∧
      (step pendingApp
          (AppEvent.fetchResolved 0 (TranslateFetch.response 500 none))
        ).submitted = pendingApp.submitted ∧
      (step pendingApp
          (AppEvent.fetchResolved 0 (TranslateFetch.response 500 none))
        ).nextId = pendingApp.nextId ∧
      (step pendingApp
          (AppEvent.fetchResolved 0 (TranslateFetch.response 500 none))
        ).translationText = pendingApp.translationText ∧
      (step pendingApp
          (AppEvent.fetchResolved 0 (TranslateFetch.response 500 none))
        ).inFlight = pendingApp.inFlight.filter (fun p => p.1 != 0))) :=
  ⟨rfl,
   Or.inr ⟨500, none, rfl, rfl⟩,
   submission_failure_transient pendingApp 0 (TranslateFetch.response 500 none)
     rfl (Or.inr ⟨500, none, rfl, rfl⟩)⟩

/-! ## The batch accumulator invariant (C1, C2) -/

/-- The record built by extraction carries the buffer position it was given
as its `frame_id`. -/
lemma extract_frame_id (t : ℤ) (k : ℕ) (d : DetectionState) :
    (extractSkeletalData t k d).frame_id = k := rfl

/-- Appending one input extends the expected record list by one record whose
`frame_id` is the next overall index mod `B`. -/
lemma recordsOf_append (B : ℕ) (x : ℤ × DetectionState) :
    ∀ (xs : List (ℤ × DetectionState)) (k : ℕ),
      recordsOf B k (xs ++ [x])
        = recordsOf B k xs
            ++ [extractSkeletalData x.1 ((k + xs.length) % B) x.2] := by
  intro xs
  induction xs with
  | nil =>
      intro k
      obtain ⟨t, d⟩ := x
      simp [recordsOf]
  | cons y ys ih =>
      intro k
      obtain ⟨t, d⟩ := y
      have harith : k + (ys.length + 1) = (k + 1) + ys.length := by omega
      simp only [List.cons_append, recordsOf, List.append_eq, ih (k + 1),
        List.length_cons, harith]

/-- The behaviour of one push when it fills the buffer. -/
lemma pushFrame_full {B : ℕ} {s : DetectorState} (x : ℤ × DetectionState)
    (h : B ≤ s.frameBuffer.length + 1) :
    pushFrame B s x
      = { s with frameBuffer := [],
                 emitted := s.emitted ++
                   [s.frameBuffer ++
                     [extractSkeletalData x.1 s.frameBuffer.length x.2]] } := by
  simp only [pushFrame, List.length_append, List.length_cons,
    List.length_nil]
  rw [if_pos]
  omega

/-- The behaviour of one push when the buffer is still short. -/
lemma pushFrame_short {B : ℕ} {s : DetectorState} (x : ℤ × DetectionState)
    (h : s.frameBuffer.length + 1 < B) :
    pushFrame B s x
      = { s with frameBuffer := s.frameBuffer ++
            [extractSkeletalData x.1 s.frameBuffer.length x.2] } := by
  simp only [pushFrame, List.length_append, List.length_cons,
    List.length_nil]
  rw [if_neg]
  omega

/-- The accumulator invariant: after `N` pushes with batch size `B > 0`, the
camera is still on, exactly `⌊N/B⌋` batches have been released, each of
length `B` with `frame_id`s `0, …, B-1` in order, the buffer holds the
remaining `N mod B` records with `frame_id`s `0, …, N mod B - 1`, and the
released batches followed by the buffer are exactly the records of the
pushed inputs in arrival order. -/
theorem runFrames_invariant (B : ℕ) (hB : 0 < B)
    (inputs : List (ℤ × DetectionState)) :
    (runFrames B inputs).cameraActive = true ∧
    (runFrames B inputs).emitted.length = inputs.length / B ∧
    (runFrames B inputs).frameBuffer.length = inputs.length % B ∧
    (runFrames B inputs).frameBuffer.map FrameRecord.frame_id
        = List.range (inputs.length % B) ∧
    (∀ b ∈ (runFrames B inputs).emitted,
        b.length = B ∧ b.map FrameRecord.frame_id = List.range B) ∧
    (runFrames B inputs).emitted.flatten ++ (runFrames B inputs).frameBuffer
        = recordsOf B 0 inputs := by
  induction inputs using List.reverseRecOn with
  | nil =>
      refine ⟨rfl, ?_, ?_, ?_, ?_, rfl⟩
      · simp [runFrames, initDetector]
      · simp [runFrames, initDetector]
      · simp [runFrames, initDetector]
      · intro b hb
        exact absurd hb (List.not_mem_nil b)
  | append_singleton xs x ih =>
      obtain ⟨hcam, hqlen, hrlen, hrmap, hbatches, hcontent⟩ := ih
      have hstep : runFrames B (xs ++ [x])
          = pushFrame B (runFrames B xs) x := by
        unfold runFrames
        rw [List.foldl_append]
        rfl
      have hr : xs.length % B < B := Nat.mod_lt _ hB
      have hdm : B * (xs.length / B) + xs.length % B = xs.length :=
        Nat.div_add_mod xs.length B
      by_cases hfull : B ≤ xs.length % B + 1
      · -- the push fills the buffer: a batch is released
        have hEq : xs.length % B + 1 = B := by omega
        have hlen1 : (xs ++ [x]).length = xs.length + 1 := by
          simp
        have hmul : xs.length + 1 = B * (xs.length / B + 1) := by
          rw [Nat.mul_succ]
          omega
        have hdiv : (xs.length + 1) / B = xs.length / B + 1 := by
          rw [hmul, Nat.mul_div_cancel_left _ hB]
        have hmod : (xs.length + 1) % B = 0 := by
          rw [hmul, Nat.mul_mod_right]
        rw [hstep, pushFrame_full x (by omega)]
        refine ⟨hcam, ?_, ?_, ?_, ?_, ?_⟩
        · rw [hlen1, hdiv]
          simp only [List.length_append, List.length_cons, List.length_nil,
            hqlen]
        · rw [hlen1, hmod]
          rfl
        · rw [hlen1, hmod]
          simp
        · intro b hb
          rcases List.mem_append.mp hb with hb | hb
          · exact hbatches b hb
          · rcases List.mem_singleton.mp hb with rfl
            constructor
            · simp only [List.length_append, List.length_cons,
                List.length_nil, hrlen]
              omega
            · rw [List.map_append, hrmap]
              simp only [List.map_cons, List.map_nil, extract_frame_id,
                hrlen]
              conv_rhs => rw [← hEq]
              rw [List.range_succ]
        · rw [List.append_nil, List.flatten_append,
            recordsOf_append B x xs 0]
          simp only [List.flatten_cons, List.flatten_nil, List.append_nil]
          rw [← List.append_assoc, hcontent, Nat.zero_add, ← hrlen]
      · -- the buffer is still short: no batch is released
        have hlen1 : (xs ++ [x]).length = xs.length + 1 := by
          simp
        have hsplit : xs.length + 1
            = B * (xs.length / B) + (xs.length % B + 1) := by omega
        have hlt : xs.length % B + 1 < B := by omega
        have hmod : (xs.length + 1) % B = xs.length % B + 1 := by
          rw [hsplit, Nat.mul_add_mod]
          exact Nat.mod_eq_of_lt hlt
        have hdiv : (xs.length + 1) / B = xs.length / B := by
          rw [hsplit, Nat.mul_add_div hB, Nat.div_eq_of_lt hlt,
            Nat.add_zero]
        rw [hstep, pushFrame_short x (by omega)]
        refine ⟨hcam, ?_, ?_, ?_, hbatches, ?_⟩
        · rw [hlen1, hdiv]
          exact hqlen
        · rw [hlen1, hmod]
          simp only [List.length_append, List.length_cons, List.length_nil,
            hrlen]
        · rw [List.map_append, hrmap]
          simp only [List.map_cons, List.map_nil, extract_frame_id, hrlen]
          rw [hlen1, hmod, List.range_succ]
        · rw [← List.append_assoc, hcontent, recordsOf_append B x xs 0,
            Nat.zero_add, ← hrlen]

/-- C1: for every pushed sequence of `N` records with batch size `B > 0`,
exactly `⌊N/B⌋` full batches are released, each holding exactly `B` records
whose `frame_id`s are their 0-based positions `0, …, B-1` within the batch
(resetting to 0 after every release), and the released batches followed by
the residual buffer list the records in arrival order. -/
theorem accumulator_full_batches (B : ℕ)
    (inputs : List (ℤ × DetectionState)) (hB : 0 < B) :
    (runFrames B inputs).emitted.length = inputs.length / B ∧
    (∀ b ∈ (runFrames B inputs).emitted,
        b.length = B ∧ b.map FrameRecord.frame_id = List.range B) ∧
    (runFrames B inputs).emitted.flatten ++ (runFrames B inputs).frameBuffer
        = recordsOf B 0 inputs := by
  obtain ⟨-, h2, -, -, h5, h6⟩ := runFrames_invariant B hB inputs
  exact ⟨h2, h5, h6⟩

/-- Three concrete captured frames used by the accumulator witnesses. -/
def frames3 : List (ℤ × DetectionState) :=
  [((0:ℤ), emptyDetection), ((1:ℤ), emptyDetection), ((2:ℤ), emptyDetection)]

/-- Witness for C1 at batch size 2 and three concrete pushed frames. -/
theorem accumulator_full_batches_witness :
    0 < 2 ∧
    ((runFrames 2 frames3).emitted.length = frames3.length / 2 ∧
     (∀ b ∈ (runFrames 2 frames3).emitted,
         b.length = 2 ∧ b.map FrameRecord.frame_id = List.range 2) ∧
     (runFrames 2 frames3).emitted.flatten
         ++ (runFrames 2 frames3).frameBuffer
         = recordsOf 2 0 frames3) :=
  ⟨by decide, accumulator_full_batches 2 frames3 (by decide)⟩

/-- C2 counterexample: with batch size 2, one record is captured and then
the stream is stopped; stop releases nothing — the emitted history stays
empty while the captured record sits undelivered in the frame buffer. -/
theorem stop_discards_buffered_records :
    (detectorStop (runFrames 2 [((0:ℤ), emptyDetection)])).emitted = [] ∧
    (detectorStop (runFrames 2 [((0:ℤ), emptyDetection)])).frameBuffer.length
        = 1 ∧
    (detectorStop (runFrames 2 [((0:ℤ), emptyDetection)])).cameraActive
        = false :=
  ⟨rfl, rfl, rfl⟩

/-- C2 amended: there is no flush operation — stopping the stream only turns
the camera off: it releases no short batch, every batch ever released has
exactly `B` records, and the `N mod B` residual records stay in the buffer,
never delivered. -/
theorem stop_never_flushes (B : ℕ) (inputs : List (ℤ × DetectionState))
    (hB : 0 < B) :
    (detectorStop (runFrames B inputs)).emitted
        = (runFrames B inputs).emitted ∧
    (detectorStop (runFrames B inputs)).frameBuffer
        = (runFrames B inputs).frameBuffer ∧
    (detectorStop (runFrames B inputs)).frameBuffer.length
        = inputs.length % B ∧
    (detectorStop (runFrames B inputs)).cameraActive = false ∧
    ∀ b ∈ (detectorStop (runFrames B inputs)).emitted, b.length = B := by
  obtain ⟨-, -, h3, -, h5, -⟩ := runFrames_invariant B hB inputs
  exact ⟨rfl, rfl, h3, rfl, fun b hb => (h5 b hb).1⟩

/-- Witness for the amended C2 at batch size 2 and three concrete frames. -/
theorem stop_never_flushes_witness :
    0 < 2 ∧
    ((detectorStop (runFrames 2 frames3)).emitted
        = (runFrames 2 frames3).emitted ∧
     (detectorStop (runFrames 2 frames3)).frameBuffer
        = (runFrames 2 frames3).frameBuffer ∧
     (detectorStop (runFrames 2 frames3)).frameBuffer.length
        = frames3.length % 2 ∧
     (detectorStop (runFrames 2 frames3)).cameraActive = false ∧
     ∀ b ∈ (detectorStop (runFrames 2 frames3)).emitted, b.length = 2) :=
  ⟨by decide, stop_never_flushes 2 frames3 (by decide)⟩

end SignPWA
